import Mathlib

/-!
Shallow embedding of the Fire Station Management System (src/app.py) and
verification of its specification claims.

The source is a single Python file: static reference data (a vehicle roster
and an equipment catalog), five helper functions (ai_route,
generate_equipment_chart, generate_water_chart, generate_map,
dispatch_incident) and UI wiring.  Randomness (random.choice,
random.randint) is modelled by an explicit stream of natural numbers
(one value per call, in call order).  Raster images and the folium map are
modelled by their logical content (bar data, marker/path coordinates).
Python float coercion of the coordinate text boxes is modelled by an
executable decimal-literal parser returning an unreduced decimal value.
-/

set_option maxRecDepth 8192

namespace FireStation

/-- A stream of random draws: the k-th random call of one dispatch reads
entry k.  Models the shared global PRNG of the source. -/
abbrev RNG := Nat → Nat

/-- Python random.randint(a, b): an integer in [a, b], both ends included,
drawn from one stream value r. -/
def randint (a b : Nat) (r : Nat) : Nat := a + r % (b - a + 1)

/-- Python random.choice over a nonempty list, drawn from one stream value r
(the empty-list fallback is never hit in this program). -/
def pyChoice (l : List String) (r : Nat) : String := l.getD (r % l.length) ""

/-- vehicles (src/app.py line 14): insertion-ordered mapping from vehicle
name to officer roster. -/
def vehicles : List (String × List String) :=
  [("🚒 Fire Engine 1", ["Officer A", "Officer B", "Officer C"]),
   ("🚒 Fire Engine 2", ["Officer D", "Officer E"]),
   ("🚑 Rescue Van 1", ["Officer F", "Officer G"])]

/-- equipment_list (src/app.py line 20): the fixed equipment catalog. -/
def equipment_list : List String :=
  ["🧯 Fire Extinguisher", "💧 Water Hose", "🫁 Oxygen Cylinder", "✂ Hydraulic Cutter", "🧤 Protective Gear"]

/-- ai_route (src/app.py lines 27-32). -/
def ai_route (severity : String) : String × Nat :=
  if severity = "High" then ("🛣 Emergency Green Corridor", 12)
  else if severity = "Medium" then ("🛣 Traffic-Aware City Route", 18)
  else ("🛣 Normal Shortest Route", 25)

/-- Does the second list start with the first one? -/
def startsWithList : List Char → List Char → Bool
  | [], _ => true
  | _ :: _, [] => false
  | p :: ps, c :: cs => p == c && startsWithList ps cs

/-- Does the second list contain the first as a contiguous run? -/
def listContains (pat : List Char) : List Char → Bool
  | [] => pat.isEmpty
  | c :: cs => startsWithList pat (c :: cs) || listContains pat cs

/-- Substring test used to state the report-content claims. -/
def strContains (s pat : String) : Bool := listContains pat.data s.data

lemma listContains_append_right (pat s t : List Char)
    (h : listContains pat t = true) : listContains pat (s ++ t) = true := by
  induction s with
  | nil => simpa using h
  | cons c cs ih => simp [listContains, ih]

lemma strContains_append_right (a b pat : String)
    (h : strContains b pat = true) : strContains (a ++ b) pat = true := by
  unfold strContains at h ⊢
  have hd : (a ++ b).data = a.data ++ b.data := rfl
  rw [hd]
  exact listContains_append_right _ _ _ h

/-- An unreduced decimal value: mantissa / 10 ^ exp.  Coordinates parsed
from the text boxes are decimal literals, represented exactly. -/
structure Decimal where
  mantissa : ℤ
  exp : Nat
deriving DecidableEq

/-- Accumulate the value of a run of decimal digits. -/
def digitsVal (l : List Char) : ℤ :=
  l.foldl (fun a c => a * 10 + ((c.toNat : ℤ) - 48)) 0

/-- Python float(...) on the coordinate strings of this app: an optional
sign followed by digits with at most one decimal point (at least one digit
overall); anything else raises, modelled as none. -/
def pyFloat (s : String) : Option Decimal :=
  let cs := s.data
  let sign : ℤ := if cs.head? == some '-' then -1 else 1
  let cs2 := if cs.head? == some '-' || cs.head? == some '+' then cs.tail else cs
  let intDigits := cs2.takeWhile Char.isDigit
  let rest := cs2.dropWhile Char.isDigit
  match rest with
  | [] =>
    if intDigits.isEmpty then none
    else some ⟨sign * digitsVal intDigits, 0⟩
  | '.' :: frac =>
    if frac.all Char.isDigit && !(intDigits.isEmpty && frac.isEmpty) then
      some ⟨sign * (digitsVal intDigits * 10 ^ frac.length + digitsVal frac), frac.length⟩
    else none
  | _ => none

/-- The fixed station latitude, 12.9716 (src/app.py line 85). -/
def station_lat : Decimal := ⟨129716, 4⟩

/-- The fixed station longitude, 77.5946 (src/app.py line 85). -/
def station_lon : Decimal := ⟨775946, 4⟩

/-- The logical content of the folium map document: base location and zoom,
the AntPath polylines, and the markers with their tooltips. -/
structure MapDoc where
  location : Decimal × Decimal
  zoom : Nat
  paths : List (List (Decimal × Decimal))
  markers : List ((Decimal × Decimal) × String)
deriving DecidableEq

/-- generate_map (src/app.py lines 81-94): coerces both coordinates
(raising, i.e. returning none, if either fails), then builds a map with one
animated path from the station to the incident and two markers. -/
def generate_map (lat lon : String) : Option MapDoc :=
  (pyFloat lat).bind fun la =>
  (pyFloat lon).map fun lo =>
    { location := (station_lat, station_lon)
      zoom := 13
      paths := [[(station_lat, station_lon), (la, lo)]]
      markers := [((station_lat, station_lon), "Fire Station"),
                  ((la, lo), "Incident Location")] }

/-- One record of the incident history, mirroring the dict built at
src/app.py lines 115-125 (field names follow the dict keys). -/
structure IncidentRecord where
  incident : String
  location : String
  severity : String
  vehicle : String
  officers : String
  route : String
  eta : Nat
  equipmentUsed : String
  waterUsed : ℤ
deriving DecidableEq

/-- The logical content of the equipment bar chart
(generate_equipment_chart, src/app.py lines 37-49). -/
structure EquipmentChart where
  title : String
  ylabel : String
  bars : List (String × Nat)
deriving DecidableEq

/-- generate_equipment_chart (src/app.py lines 37-49): one bar per
equipment label, y = its usage count. -/
def generate_equipment_chart (equipment_counts : List (String × Nat)) : EquipmentChart :=
  { title := "🧰 Equipment Usage", ylabel := "Units Used", bars := equipment_counts }

/-- The logical content of the water chart: either the empty-history
placeholder with its centered text, or a bar chart (x = incident index,
y = water used). -/
inductive WaterChart where
  | placeholder (text : String)
  | chart (title ylabel xlabel : String) (bars : List (Nat × ℤ))
deriving DecidableEq

/-- generate_water_chart (src/app.py lines 54-76): placeholder on an empty
history, otherwise one bar per historical incident. -/
def generate_water_chart (log : List IncidentRecord) : WaterChart :=
  if log.isEmpty then
    WaterChart.placeholder "No Incidents Yet"
  else
    WaterChart.chart "💧 Water Usage per Incident" "Liters" "Incident #"
      (log.enum.map fun p => (p.1, p.2.waterUsed))

/-- Python str.join with separator ", " as used throughout the handler. -/
def joinComma (l : List String) : String := String.intercalate ", " l

/-- random.choice(list(vehicles.keys())) (src/app.py line 104), reading
stream entry 0 of the dispatch. -/
def pick_vehicle (g : RNG) : String := pyChoice (vehicles.map Prod.fst) (g 0)

/-- ", ".join(vehicles[vehicle]) (src/app.py line 105). -/
def officers_of (vehicle : String) : String := joinComma ((vehicles.lookup vehicle).getD [])

/-- Python dict insertion: an existing key is overwritten in place, a new
key is appended at the end. -/
def dictInsert (k : String) (v : Nat) : List (String × Nat) → List (String × Nat)
  | [] => [(k, v)]
  | (k0, v0) :: rest => if k0 = k then (k, v) :: rest else (k0, v0) :: dictInsert k v rest

/-- Left-to-right construction of the equipment-count dict, item i reading
stream entry i. -/
def buildCounts (g : RNG) : Nat → List String → List (String × Nat) → List (String × Nat)
  | _, [], d => d
  | i, e :: rest, d => buildCounts g (i + 1) rest (dictInsert e (randint 1 3 (g i)) d)

/-- equipment_count (src/app.py line 108): for each selected label, a count
drawn by random.randint(1, 3). -/
def equipment_count (equipment : List String) (g : RNG) : List (String × Nat) :=
  buildCounts g 0 equipment []

/-- The history record built by one dispatch (src/app.py lines 115-125).
The random stream g determines the vehicle (entry 0) exactly as in
dispatch_incident.  Water volume is modelled as an integer. -/
def record_of (incident_type severity latitude longitude : String)
    (equipment : List String) (water_used_liters : ℤ) (g : RNG) : IncidentRecord :=
  { incident := incident_type
    location := latitude ++ ", " ++ longitude
    severity := severity
    vehicle := pick_vehicle g
    officers := officers_of (pick_vehicle g)
    route := (ai_route severity).1
    eta := (ai_route severity).2
    equipmentUsed := joinComma equipment
    waterUsed := water_used_liters }

/-- The dispatch report f-string (src/app.py lines 138-160), with the three
stage messages accumulated into stage_msg (lines 101, 111, 130) inlined as
the fixed timeline text they always are. -/
def format_report (incident_type latitude longitude severity vehicle officers route : String)
    (eta : Nat) (equipment : List String) (water_used_liters : ℤ) : String :=
  "\n━━━━━━━━ 🚨 INCIDENT RESPONSE REPORT ━━━━━━━━\n\n🔥 Incident Type : " ++ incident_type
    ++ "\n📍 Location      : " ++ latitude ++ ", " ++ longitude
    ++ "\n⚠ Severity      : " ++ severity
    ++ "\n\n🚒 Vehicle       : " ++ vehicle
    ++ "\n👨‍🚒 Officers    : " ++ officers
    ++ "\n\n🛣 AI Route      : " ++ route
    ++ "\n⏱ ETA           : " ++ toString eta
    ++ " minutes\n\n🧰 Equipment Used:\n" ++ joinComma equipment
    ++ "\n💧 Water Used: " ++ toString water_used_liters
    ++ " Liters\n\n🕒 Timeline:\n🚨 Dispatched: Vehicle is on the way...\n🟡 On Scene: Firefighters reached incident site...\n🟢 Resolved: Incident cleared successfully!\n\n✅ Status: INCIDENT SUCCESSFULLY RESOLVED\n━━━━━━━━━━━━━━━━━━━━━━━━━━━━━━━━━━━━━━━━━━━━\n"

/-- The five values returned to the UI by dispatch_incident
(src/app.py line 162). -/
structure DispatchOutput where
  report : String
  df : List IncidentRecord
  eq_chart : EquipmentChart
  water_chart : WaterChart
  map_path : MapDoc

/-- dispatch_incident (src/app.py lines 99-162).  The record is appended to
the history first (line 126); generate_map runs last (line 161), so a
coordinate-coercion failure (modelled by the none branch of Option.map)
leaves the append in place while no outputs reach the caller.  The
time.sleep pacing has no observable effect and is dropped. -/
def dispatch_incident (incident_type severity latitude longitude : String)
    (equipment : List String) (water_used_liters : ℤ) (g : RNG)
    (incident_log : List IncidentRecord) :
    List IncidentRecord × Option DispatchOutput :=
  let record := record_of incident_type severity latitude longitude equipment water_used_liters g
  let newLog := incident_log ++ [record]
  (newLog,
    (generate_map latitude longitude).map fun m =>
      { report := format_report incident_type latitude longitude severity (pick_vehicle g)
          (officers_of (pick_vehicle g)) (ai_route severity).1 (ai_route severity).2
          equipment water_used_liters
        df := newLog
        eq_chart := generate_equipment_chart (equipment_count equipment (fun i => g (i + 1)))
        water_chart := generate_water_chart newLog
        map_path := m })

/-- The arguments of one dispatch invocation, its random draws included. -/
structure DispatchInput where
  incident_type : String
  severity : String
  latitude : String
  longitude : String
  equipment : List String
  water_used_liters : ℤ
  g : RNG

/-- The record one invocation appends. -/
def callRecord (c : DispatchInput) : IncidentRecord :=
  record_of c.incident_type c.severity c.latitude c.longitude c.equipment c.water_used_liters c.g

/-- A session: the history threaded through a sequence of dispatch calls. -/
def runDispatches (calls : List DispatchInput) (log : List IncidentRecord) : List IncidentRecord :=
  calls.foldl
    (fun lg c =>
      (dispatch_incident c.incident_type c.severity c.latitude c.longitude c.equipment
        c.water_used_liters c.g lg).1)
    log

lemma pick_vehicle_cases (g : RNG) :
    pick_vehicle g = "🚒 Fire Engine 1" ∨ pick_vehicle g = "🚒 Fire Engine 2" ∨
      pick_vehicle g = "🚑 Rescue Van 1" := by
  have h3 : g 0 % 3 = 0 ∨ g 0 % 3 = 1 ∨ g 0 % 3 = 2 := by omega
  unfold pick_vehicle pyChoice
  rw [show (vehicles.map Prod.fst).length = 3 from rfl]
  rcases h3 with h | h | h <;> rw [h]
  · exact Or.inl rfl
  · exact Or.inr (Or.inl rfl)
  · exact Or.inr (Or.inr rfl)

lemma pick_vehicle_mem (g : RNG) : pick_vehicle g ∈ vehicles.map Prod.fst := by
  rcases pick_vehicle_cases g with h | h | h <;> rw [h] <;> decide

example : pyFloat "12.97" = some ⟨1297, 2⟩ := by decide

example : pyFloat "77.5950" = some ⟨775950, 4⟩ := by decide

example : pyFloat "abc" = none := by decide

example : pyFloat "" = none := by decide

example : pyFloat "-3.5" = some ⟨-35, 1⟩ := by decide

example : strContains "hello world" "lo wo" = true := by decide

example : strContains "hello world" "low" = false := by decide

/-- C2: the route policy is a pure deterministic function of severity, but
the labels it returns carry a leading route emoji: High gives
("🛣 Emergency Green Corridor", 12), Medium gives
("🛣 Traffic-Aware City Route", 18), Low gives
("🛣 Normal Shortest Route", 25); repeated calls agree (the model is a
pure function reading no state). -/
theorem c2_route_policy :
    ai_route "High" = ("🛣 Emergency Green Corridor", 12)
    ∧ ai_route "Medium" = ("🛣 Traffic-Aware City Route", 18)
    ∧ ai_route "Low" = ("🛣 Normal Shortest Route", 25)
    ∧ ∀ s : String, ai_route s = ai_route s :=
  ⟨rfl, rfl, rfl, fun _ => rfl⟩

/-- C2 counterexample: the pair the claim documents for High is not what
the code returns: the label carries a "🛣 " prefix. -/
theorem c2_counterexample : ai_route "High" ≠ ("Emergency Green Corridor", 12) := by
  decide

/-- C10: ai_route is total: every argument other than the exact strings
"High" and "Medium" falls through to ("🛣 Normal Shortest Route", 25). -/
theorem c10_ai_route_total (s : String) (h1 : s ≠ "High") (h2 : s ≠ "Medium") :
    ai_route s = ("🛣 Normal Shortest Route", 25) := by
  simp [ai_route, h1, h2]

/-- C10 witness: the empty string takes the fall-through branch. -/
theorem c10_ai_route_total_witness :
    ai_route "" = ("🛣 Normal Shortest Route", 25) :=
  c10_ai_route_total "" (by decide) (by decide)

/-- C3: with numeric-coercible coordinate strings generate_map succeeds and
the document has exactly two markers (the fixed station marker and the
destination marker at the parsed input coordinate) and exactly one path of
two points; with latitude "abc" it fails and no document is produced. -/
theorem c3_render_map (lat lon : String) (qla qlo : Decimal)
    (hla : pyFloat lat = some qla) (hlo : pyFloat lon = some qlo) :
    (∃ m : MapDoc,
        generate_map lat lon = some m
        ∧ m.markers = [((station_lat, station_lon), "Fire Station"),
                       ((qla, qlo), "Incident Location")]
        ∧ m.paths = [[(station_lat, station_lon), (qla, qlo)]])
    ∧ ∀ lon2 : String, generate_map "abc" lon2 = none := by
  refine ⟨⟨{ location := (station_lat, station_lon)
             zoom := 13
             paths := [[(station_lat, station_lon), (qla, qlo)]]
             markers := [((station_lat, station_lon), "Fire Station"),
                         ((qla, qlo), "Incident Location")] }, ?_, rfl, rfl⟩,
          fun lon2 => rfl⟩
  unfold generate_map
  rw [hla, hlo]
  rfl

/-- C3 witness: the coordinates "12.97" and "77.59" from the spec. -/
theorem c3_render_map_witness :
    (∃ m : MapDoc,
        generate_map "12.97" "77.59" = some m
        ∧ m.markers = [((station_lat, station_lon), "Fire Station"),
                       ((⟨1297, 2⟩, ⟨7759, 2⟩), "Incident Location")]
        ∧ m.paths = [[(station_lat, station_lon), (⟨1297, 2⟩, ⟨7759, 2⟩)]])
    ∧ ∀ lon2 : String, generate_map "abc" lon2 = none :=
  c3_render_map "12.97" "77.59" ⟨1297, 2⟩ ⟨7759, 2⟩ (by decide) (by decide)

/-- C1: dispatching Building Fire / High / 12.9756 / 77.5950 with one
extinguisher and 500 L of water returns a report containing
"Emergency Green Corridor" and "12 minutes", records a vehicle from the
configured roster, and appends exactly one record, whose water field is
500, to the history — for every random stream and every starting log. -/
theorem c1_dispatch_end_to_end (g : RNG) (log : List IncidentRecord) :
    ∃ (o : DispatchOutput) (r : IncidentRecord),
      dispatch_incident "Building Fire" "High" "12.9756" "77.5950"
          ["🧯 Fire Extinguisher"] 500 g log = (log ++ [r], some o)
      ∧ strContains o.report "Emergency Green Corridor" = true
      ∧ strContains o.report "12 minutes" = true
      ∧ r.vehicle ∈ vehicles.map Prod.fst
      ∧ r.waterUsed = 500 := by
  rcases pick_vehicle_cases g with hv | hv | hv <;>
    refine ⟨_, _, rfl, ?_, ?_, pick_vehicle_mem g, rfl⟩ <;>
    rw [hv] <;> rfl

lemma format_report_timeline (it la lo sev v off r : String) (eta : Nat)
    (eqp : List String) (w : ℤ) :
    strContains (format_report it la lo sev v off r eta eqp w) "🚨 Dispatched" = true
    ∧ strContains (format_report it la lo sev v off r eta eqp w) "🟡 On Scene" = true
    ∧ strContains (format_report it la lo sev v off r eta eqp w) "🟢 Resolved" = true := by
  unfold format_report
  exact ⟨strContains_append_right _ _ _ (by decide),
         strContains_append_right _ _ _ (by decide),
         strContains_append_right _ _ _ (by decide)⟩

/-- C5 counterexample: with a non-coercible latitude the orchestrator does
not return its outputs — the claimed absence of any error exit is false. -/
theorem c5_counterexample :
    (dispatch_incident "Building Fire" "High" "abc" "77.5950"
        ["🧯 Fire Extinguisher"] 500 (fun _ => 0) []).2 = none := by
  rfl

/-- C5 (amended): whenever both coordinates are numeric-coercible the
orchestrator reaches Resolved and hands all five outputs to the caller:
the full timeline (Dispatched, On Scene, Resolved) appears in the report
and the history table, charts and map are all produced. -/
theorem c5_resolved_when_coercible (it sev la lo : String) (eqp : List String)
    (w : ℤ) (g : RNG) (log : List IncidentRecord) (qla qlo : Decimal)
    (hla : pyFloat la = some qla) (hlo : pyFloat lo = some qlo) :
    ∃ o : DispatchOutput,
      (dispatch_incident it sev la lo eqp w g log).2 = some o
      ∧ o.df = log ++ [record_of it sev la lo eqp w g]
      ∧ strContains o.report "🚨 Dispatched" = true
      ∧ strContains o.report "🟡 On Scene" = true
      ∧ strContains o.report "🟢 Resolved" = true := by
  have hm : generate_map la lo = some
      { location := (station_lat, station_lon)
        zoom := 13
        paths := [[(station_lat, station_lon), (qla, qlo)]]
        markers := [((station_lat, station_lon), "Fire Station"),
                    ((qla, qlo), "Incident Location")] } := by
    unfold generate_map
    rw [hla, hlo]
    rfl
  refine ⟨{ report := format_report it la lo sev (pick_vehicle g) (officers_of (pick_vehicle g))
              (ai_route sev).1 (ai_route sev).2 eqp w
            df := log ++ [record_of it sev la lo eqp w g]
            eq_chart := generate_equipment_chart (equipment_count eqp (fun i => g (i + 1)))
            water_chart := generate_water_chart (log ++ [record_of it sev la lo eqp w g])
            map_path := { location := (station_lat, station_lon)
                          zoom := 13
                          paths := [[(station_lat, station_lon), (qla, qlo)]]
                          markers := [((station_lat, station_lon), "Fire Station"),
                                      ((qla, qlo), "Incident Location")] } }, ?_, rfl, ?_, ?_, ?_⟩
  · show (generate_map la lo).map _ = some _
    rw [hm]
    rfl
  · exact (format_report_timeline it la lo sev (pick_vehicle g)
      (officers_of (pick_vehicle g)) (ai_route sev).1 (ai_route sev).2 eqp w).1
  · exact (format_report_timeline it la lo sev (pick_vehicle g)
      (officers_of (pick_vehicle g)) (ai_route sev).1 (ai_route sev).2 eqp w).2.1
  · exact (format_report_timeline it la lo sev (pick_vehicle g)
      (officers_of (pick_vehicle g)) (ai_route sev).1 (ai_route sev).2 eqp w).2.2

/-- C5 witness: the spec's own end-to-end inputs. -/
theorem c5_resolved_when_coercible_witness :
    ∃ o : DispatchOutput,
      (dispatch_incident "Building Fire" "High" "12.9756" "77.5950"
          ["🧯 Fire Extinguisher"] 500 (fun _ => 0) []).2 = some o
      ∧ o.df = [] ++ [record_of "Building Fire" "High" "12.9756" "77.5950"
          ["🧯 Fire Extinguisher"] 500 (fun _ => 0)]
      ∧ strContains o.report "🚨 Dispatched" = true
      ∧ strContains o.report "🟡 On Scene" = true
      ∧ strContains o.report "🟢 Resolved" = true :=
  c5_resolved_when_coercible "Building Fire" "High" "12.9756" "77.5950"
    ["🧯 Fire Extinguisher"] 500 (fun _ => 0) [] ⟨129756, 4⟩ ⟨775950, 4⟩
    (by decide) (by decide)

/-- C9: when the latitude is not numeric-coercible the record has already
been appended when map generation fails: the history still grows by one
while no outputs are returned — the failed dispatch is not atomic with
respect to the history store. -/
theorem c9_failed_dispatch_appends (it sev lon2 : String) (eqp : List String)
    (w : ℤ) (g : RNG) (log : List IncidentRecord) (la : String)
    (hla : pyFloat la = none) :
    (dispatch_incident it sev la lon2 eqp w g log).1
      = log ++ [record_of it sev la lon2 eqp w g]
    ∧ (dispatch_incident it sev la lon2 eqp w g log).1.length = log.length + 1
    ∧ (dispatch_incident it sev la lon2 eqp w g log).2 = none := by
  have hm : generate_map la lon2 = none := by
    unfold generate_map
    rw [hla]
    rfl
  have h1 : (dispatch_incident it sev la lon2 eqp w g log).1
      = log ++ [record_of it sev la lon2 eqp w g] := rfl
  refine ⟨h1, ?_, ?_⟩
  · rw [h1]
    simp
  · show (generate_map la lon2).map _ = none
    rw [hm]
    rfl

/-- C9 witness: latitude "abc" on an empty log. -/
theorem c9_failed_dispatch_appends_witness :
    (dispatch_incident "Building Fire" "Low" "abc" "77.59" [] 0 (fun _ => 0) []).1
      = [] ++ [record_of "Building Fire" "Low" "abc" "77.59" [] 0 (fun _ => 0)]
    ∧ (dispatch_incident "Building Fire" "Low" "abc" "77.59" [] 0 (fun _ => 0) []).1.length
      = List.length ([] : List IncidentRecord) + 1
    ∧ (dispatch_incident "Building Fire" "Low" "abc" "77.59" [] 0 (fun _ => 0) []).2 = none :=
  c9_failed_dispatch_appends "Building Fire" "Low" "77.59" [] 0 (fun _ => 0) [] "abc" (by decide)

lemma dispatch_log_step (c : DispatchInput) (lg : List IncidentRecord) :
    (dispatch_incident c.incident_type c.severity c.latitude c.longitude c.equipment
        c.water_used_liters c.g lg).1 = lg ++ [callRecord c] := rfl

lemma runDispatches_eq (calls : List DispatchInput) (log : List IncidentRecord) :
    runDispatches calls log = log ++ calls.map callRecord := by
  induction calls generalizing log with
  | nil => simp [runDispatches]
  | cons c cs ih =>
    have h1 : runDispatches (c :: cs) log = runDispatches cs (log ++ [callRecord c]) := rfl
    rw [h1, ih]
    simp

/-- C4: the history store is append-only: each dispatch call rewrites the
log to the old log plus exactly one new record at the end, a session of N
calls starting from the empty history produces exactly the N call records
in call order, and in particular the history length after N calls is N. -/
theorem c4_history_append_only (calls : List DispatchInput) (log : List IncidentRecord) :
    runDispatches calls log = log ++ calls.map callRecord
    ∧ (runDispatches calls []).length = calls.length
    ∧ ∀ (c : DispatchInput) (lg : List IncidentRecord),
        (dispatch_incident c.incident_type c.severity c.latitude c.longitude c.equipment
            c.water_used_liters c.g lg).1 = lg ++ [callRecord c] := by
  refine ⟨runDispatches_eq calls log, ?_, fun c lg => dispatch_log_step c lg⟩
  rw [runDispatches_eq]
  simp

lemma dictInsert_keys_mem (k k0 : String) (v : Nat) (d : List (String × Nat)) :
    k ∈ (dictInsert k0 v d).map Prod.fst ↔ k = k0 ∨ k ∈ d.map Prod.fst := by
  induction d with
  | nil => simp [dictInsert]
  | cons p rest ih =>
    obtain ⟨k1, v1⟩ := p
    by_cases h : k1 = k0
    · subst h
      simp [dictInsert]
    · simp [dictInsert, h, ih]
      tauto

lemma dictInsert_values (k : String) (v : Nat) (d : List (String × Nat)) :
    ∀ p ∈ dictInsert k v d, p.2 = v ∨ p ∈ d := by
  induction d with
  | nil => simp [dictInsert]
  | cons q rest ih =>
    obtain ⟨k1, v1⟩ := q
    intro p hp
    by_cases h : k1 = k
    · subst h
      rw [dictInsert, if_pos rfl] at hp
      rcases List.mem_cons.mp hp with h1 | h1
      · exact Or.inl (by rw [h1])
      · exact Or.inr (List.mem_cons_of_mem _ h1)
    · rw [dictInsert, if_neg h] at hp
      rcases List.mem_cons.mp hp with h1 | h1
      · exact Or.inr (by rw [h1]; exact List.mem_cons_self _ _)
      · rcases ih p h1 with h2 | h2
        · exact Or.inl h2
        · exact Or.inr (List.mem_cons_of_mem _ h2)

lemma buildCounts_keys (g : RNG) (l : List String) :
    ∀ (i : Nat) (d : List (String × Nat)) (k : String),
      k ∈ (buildCounts g i l d).map Prod.fst ↔ k ∈ l ∨ k ∈ d.map Prod.fst := by
  induction l with
  | nil =>
    intro i d k
    simp [buildCounts]
  | cons a rest ih =>
    intro i d k
    rw [buildCounts, ih, dictInsert_keys_mem]
    simp [List.mem_cons]
    tauto

lemma buildCounts_values (g : RNG) (l : List String) :
    ∀ (i : Nat) (d : List (String × Nat)),
      (∀ p ∈ d, 1 ≤ p.2 ∧ p.2 ≤ 3) →
      ∀ p ∈ buildCounts g i l d, 1 ≤ p.2 ∧ p.2 ≤ 3 := by
  induction l with
  | nil =>
    intro i d hd
    simpa [buildCounts] using hd
  | cons a rest ih =>
    intro i d hd
    rw [buildCounts]
    refine ih (i + 1) _ ?_
    intro p hp
    rcases dictInsert_values _ _ _ p hp with h | h
    · rw [h]
      unfold randint
      omega
    · exact hd p h

/-- C6: the equipment-allocation dict has exactly the selected labels as
keys, every count lies in [1, 3], and the empty selection yields the empty
mapping — for every selection and every random stream. -/
theorem c6_allocate_equipment (equipment : List String) (g : RNG) :
    (∀ k, k ∈ (equipment_count equipment g).map Prod.fst ↔ k ∈ equipment)
    ∧ (∀ p ∈ equipment_count equipment g, 1 ≤ p.2 ∧ p.2 ≤ 3)
    ∧ equipment_count [] g = [] := by
  refine ⟨fun k => ?_, ?_, rfl⟩
  · rw [equipment_count, buildCounts_keys]
    simp
  · exact buildCounts_values g equipment 0 [] (by simp)

/-- C7: on the empty history the water chart is the placeholder image with
the centered "No Incidents Yet" text; on any nonempty history it is the
bar chart with one bar per incident (x = index, y = water used), which is
distinct from the placeholder. -/
theorem c7_water_chart :
    generate_water_chart [] = WaterChart.placeholder "No Incidents Yet"
    ∧ ∀ log : List IncidentRecord, log ≠ [] →
        generate_water_chart log
          = WaterChart.chart "💧 Water Usage per Incident" "Liters" "Incident #"
              (log.enum.map fun p => (p.1, p.2.waterUsed))
        ∧ generate_water_chart log ≠ generate_water_chart [] := by
  refine ⟨rfl, fun log hlog => ?_⟩
  have hne : log.isEmpty = false := by
    cases log with
    | nil => exact absurd rfl hlog
    | cons a l => rfl
  constructor
  · rw [generate_water_chart, hne]
    rfl
  · rw [generate_water_chart, hne]
    simp [generate_water_chart]

/-- A concrete record used to instantiate hypotheses at a nonempty log. -/
def sampleRecord : IncidentRecord :=
  record_of "Building Fire" "High" "12.9756" "77.5950" ["🧯 Fire Extinguisher"] 500 (fun _ => 0)

/-- C7 witness: a one-incident history. -/
theorem c7_water_chart_witness :
    generate_water_chart [sampleRecord]
      = WaterChart.chart "💧 Water Usage per Incident" "Liters" "Incident #"
          ([sampleRecord].enum.map fun p => (p.1, p.2.waterUsed))
    ∧ generate_water_chart [sampleRecord] ≠ generate_water_chart [] :=
  c7_water_chart.2 [sampleRecord] (by decide)

/-- C8 counterexample: the handler validates nothing, so a dispatch called
with severity "Banana" and the unknown equipment label "Bazooka" stores a
record whose severity is outside the enum and whose equipment is not drawn
from the catalog. -/
theorem c8_counterexample :
    (record_of "x" "Banana" "1" "2" ["Bazooka"] 0 (fun _ => 0)).severity
        ∉ (["Low", "Medium", "High"] : List String)
    ∧ (record_of "x" "Banana" "1" "2" ["Bazooka"] 0 (fun _ => 0)).equipmentUsed = "Bazooka"
    ∧ "Bazooka" ∉ equipment_list
    ∧ (dispatch_incident "x" "Banana" "1" "2" ["Bazooka"] 0 (fun _ => 0) []).1
        = [record_of "x" "Banana" "1" "2" ["Bazooka"] 0 (fun _ => 0)] := by
  refine ⟨by decide, rfl, by decide, rfl⟩

/-- C8 (amended): every stored record's vehicle is one of the roster keys;
severity and the equipment selection are stored unchanged from the handler
inputs, so the enum and catalog parts of the claimed invariant hold exactly
when the inputs already satisfy them (the UI constrains its form fields to
those values, the handler itself does not). -/
theorem c8_record_invariants (it sev la lo : String) (eqp : List String)
    (w : ℤ) (g : RNG) (log : List IncidentRecord) :
    (record_of it sev la lo eqp w g).vehicle ∈ vehicles.map Prod.fst
    ∧ (record_of it sev la lo eqp w g).severity = sev
    ∧ (record_of it sev la lo eqp w g).equipmentUsed = joinComma eqp
    ∧ (dispatch_incident it sev la lo eqp w g log).1
        = log ++ [record_of it sev la lo eqp w g] :=
  ⟨pick_vehicle_mem g, rfl, rfl, rfl⟩

end FireStation
